import Mathlib

/-!
# Verification of the Three.js solar-system gravity-grid core

A shallow embedding, over the real numbers, of the numerically meaningful
core of the repository: the gravity-well vertex shader (`GRID_VERTEX_SHADER`
in `shaders.js`), the distance-fade fragment logic (`GRID_FRAGMENT_SHADER`),
the orbital kinematics of `updateCelestialBodies` in `celestialBodies.js`,
the uniform initialization of `createGrid` in `grid.js`, and the constant
sets of `constants.js` (the repository carries three variants of the
constants module; both the file version and the rescaled variant cited by
the numerical scenarios are embedded below).

GLSL floats are modelled as real numbers; GLSL `length` is the Euclidean
norm, `smoothstep` is the clamped cubic Hermite polynomial of the GLSL
specification, and `Math.sqrt` / `Math.cos` / `Math.sin` are the real
functions.
-/

open Real

noncomputable section

/-- A 3-component vector, the model of GLSL `vec3` / `THREE.Vector3`. -/
structure Vec3 where
  x : ℝ
  y : ℝ
  z : ℝ

/-- GLSL `length(a - b)` for the `xz` swizzle: horizontal Euclidean
distance between two points of the grid plane, each given by its `x` and
`z` coordinates. -/
def hdist (p q : ℝ × ℝ) : ℝ :=
  Real.sqrt ((p.1 - q.1) ^ 2 + (p.2 - q.2) ^ 2)

/-- GLSL `length(a - b)` in three dimensions, used by the fragment shader
for `distToPlayer`. -/
def dist3 (a b : Vec3) : ℝ :=
  Real.sqrt ((a.x - b.x) ^ 2 + (a.y - b.y) ^ 2 + (a.z - b.z) ^ 2)

/-! ## The gravity-well vertex shader (`GRID_VERTEX_SHADER`)

```
float dSun   = length(wp.xz - sunPos.xz) + 0.0001;
float dipSun = G * mass / (dSun*dSun + falloff);
...
wp.y -= (dipSun + dipEarth);
```
-/

/-- `length(wp.xz - p.xz) + 0.0001`: the softened horizontal distance the
shader computes for each mass (`dSun`, `dEarth`). -/
def dMass (wp p : Vec3) : ℝ :=
  hdist (wp.x, wp.z) (p.x, p.z) + 0.0001

/-- One inverse-square dip term `G * m / (d*d + falloff)` of the vertex
shader, where `d` already carries the `0.0001` epsilon. -/
def dip (wp p : Vec3) (G m falloff : ℝ) : ℝ :=
  G * m / (dMass wp p * dMass wp p + falloff)

/-- `dipSun + dipEarth`: the total dip the shader subtracts from the
vertex height. -/
def totalDip (wp sunPos earthPos : Vec3) (mass earthMass G falloff : ℝ) : ℝ :=
  dip wp sunPos G mass falloff + dip wp earthPos G earthMass falloff

/-- The world-position transform of `GRID_VERTEX_SHADER`: the vertex keeps
its `x` and `z` and has the total dip subtracted from `y`. -/
def gridVertex (wp sunPos earthPos : Vec3) (mass earthMass G falloff : ℝ) : Vec3 :=
  ⟨wp.x, wp.y - totalDip wp sunPos earthPos mass earthMass G falloff, wp.z⟩

/-- The signed vertical displacement the shader applies: new `y` minus
old `y`. -/
def gridDisplacement (wp sunPos earthPos : Vec3) (mass earthMass G falloff : ℝ) : ℝ :=
  (gridVertex wp sunPos earthPos mass earthMass G falloff).y - wp.y

/-! ## Spec-side gravity field model (for the refinement claim C1)

The spec describes the field as a sum over a list of point masses; the
shader hard-codes the two masses sun and earth. The following definitions
follow the spec's words, to be compared with the shader's. -/

/-- A point mass of the spec's data model: a world-space position and a
scalar mass. -/
structure PointMass where
  position : Vec3
  mass : ℝ

/-- Modelled from the spec: `displacement(queryXZ, massList, G, falloff)`.
For each mass, the horizontal distance with a `0.0001` epsilon added, then
`G * m / (d^2 + falloff)` accumulated; the sum is negated. -/
def specDisplacement (q : ℝ × ℝ) (massList : List PointMass) (G falloff : ℝ) : ℝ :=
  - (massList.map (fun m =>
      G * m.mass /
        ((hdist q (m.position.x, m.position.z) + 0.0001) ^ 2 + falloff))).sum

/-- C1: the vertex-shader displacement is exactly the negated sum, over
the two point masses sun and earth, of `G * m / (d^2 + falloff)` with the
`0.0001` epsilon added to each horizontal distance before squaring. -/
theorem grid_displacement_is_negated_mass_sum
    (wp sunPos earthPos : Vec3) (mass earthMass G falloff : ℝ) :
    gridDisplacement wp sunPos earthPos mass earthMass G falloff =
      specDisplacement (wp.x, wp.z)
        [⟨sunPos, mass⟩, ⟨earthPos, earthMass⟩] G falloff := by
  simp only [gridDisplacement, gridVertex, totalDip, dip, dMass,
    specDisplacement, List.map_cons, List.map_nil, List.sum_cons,
    List.sum_nil]
  ring

/-! ## Constants (`constants.js`)

The repository carries three variants of the constants module. `FileConsts`
below is the variant shipped as `src/constants.js`; `ScaledConsts` is the
rescaled variant (solar mass `1.9885e30 / 1e25`, orbital radius 400) that
the end-to-end numerical scenarios use. `celestialBodies.js` and
`grid.js` read whichever variant is present, so their embeddings are
parametrized by a `Consts` record. -/

/-- The configuration constants a `constants.js` variant exports (the
subset the verified core reads). -/
structure Consts where
  GRAVITY : ℝ
  SOLAR_MASS : ℝ
  DIP_FALLOFF : ℝ
  EARTH_MASS : ℝ
  ORB_G : ℝ
  ORBIT_RADIUS : ℝ
  MOON_ORBIT_RADIUS : ℝ

/-- `ORB_OMEGA = Math.sqrt(ORB_G * SOLAR_MASS / (ORBIT_RADIUS**3))`,
computed once at module load. -/
def Consts.ORB_OMEGA (C : Consts) : ℝ :=
  Real.sqrt (C.ORB_G * C.SOLAR_MASS / C.ORBIT_RADIUS ^ 3)

/-- `MOON_OMEGA = Math.sqrt(ORB_G * EARTH_MASS / (MOON_ORBIT_RADIUS**3))`,
computed once in `createMoon`. -/
def Consts.MOON_OMEGA (C : Consts) : ℝ :=
  Real.sqrt (C.ORB_G * C.EARTH_MASS / C.MOON_ORBIT_RADIUS ^ 3)

/-- The `src/constants.js` variant: `SOLAR_MASS = 1000`,
`DIP_FALLOFF = 15`, `EARTH_MASS = SOLAR_MASS / 400`, `ORBIT_RADIUS = 50`,
`MOON_ORBIT_RADIUS = 5`. -/
def FileConsts : Consts :=
  { GRAVITY := 9.8
    SOLAR_MASS := 1000
    DIP_FALLOFF := 15.0
    EARTH_MASS := 1000 / 400
    ORB_G := 0.2
    ORBIT_RADIUS := 50.0
    MOON_ORBIT_RADIUS := 5 }

/-- The rescaled constants variant: `SOLAR_MASS = 1.9885e30 / 1e25`,
`DIP_FALLOFF = 10`, `EARTH_MASS = SOLAR_MASS / 332950`,
`ORBIT_RADIUS = 400`, `MOON_ORBIT_RADIUS = 20`. -/
def ScaledConsts : Consts :=
  { GRAVITY := 9.8
    SOLAR_MASS := 1.9885e30 / 1e25
    DIP_FALLOFF := 10.0
    EARTH_MASS := (1.9885e30 / 1e25) / 332950
    ORB_G := 0.2
    ORBIT_RADIUS := 400.0
    MOON_ORBIT_RADIUS := 20.0 }

/-! ## Scene coordinator tick (`updateCelestialBodies` in
`celestialBodies.js`)

```
bodies.sun.material.uniforms.time.value = time;
bodies.moon.pivot.rotation.y = bodies.moon.omega * time;
bodies.moon.mesh.rotation.y  = bodies.moon.omega * time;
const ang = bodies.earthOrbitalSpeed * time;
const ex = ORBIT_RADIUS * Math.cos(ang);
const ez = ORBIT_RADIUS * Math.sin(ang);
const ey = bodies.sun.position.y;
bodies.earth.position.set(ex, ey, ez);
gridMaterial.uniforms.earthPos.value.copy(bodies.earth.position);
bodies.earth.rotation.y = time * 0.1;
```
-/

/-- The mutable scene state `updateCelestialBodies` reads and writes: the
sun's shader time and position, the moon pivot and mesh rotations and the
moon's angular rate (set once by `createMoon`), the earth's position and
spin, the orbital rate handed over by `main.js`
(`earthOrbitalSpeed: ORB_OMEGA`), and the grid material's `earthPos`
uniform. -/
structure SceneState where
  sunTime : ℝ
  sunPos : Vec3
  moonPivotRotY : ℝ
  moonMeshRotY : ℝ
  moonOmega : ℝ
  earthOrbitalSpeed : ℝ
  earthPos : Vec3
  earthRotY : ℝ
  gridEarthPosUniform : Vec3

/-- One tick of `updateCelestialBodies(bodies, time, gridMaterial)`: every
written field is a function of the constants, the retained configuration
fields (`sunPos`, `moonOmega`, `earthOrbitalSpeed`) and the current `time`
alone — no written field reads its own previous value. -/
def updateCelestialBodies (C : Consts) (s : SceneState) (time : ℝ) : SceneState :=
  let ang := s.earthOrbitalSpeed * time
  let ex := C.ORBIT_RADIUS * Real.cos ang
  let ez := C.ORBIT_RADIUS * Real.sin ang
  let ey := s.sunPos.y
  { s with
    sunTime := time
    moonPivotRotY := s.moonOmega * time
    moonMeshRotY := s.moonOmega * time
    earthPos := ⟨ex, ey, ez⟩
    gridEarthPosUniform := ⟨ex, ey, ez⟩
    earthRotY := time * 0.1 }

/-- C2: each tick sets the earth's position to
`(r·cos(ω t), y0, r·sin(ω t))` with `ω = ORB_OMEGA` computed once from the
constants; the position is a function of `t` and the configuration alone
(any two states with the same configuration fields yield the same
position), it is `(r, y0, 0)` at `t = 0`, and it returns to `(r, y0, 0)`
at `t = 2π/ω`. -/
theorem earth_orbit_kinematics (C : Consts) (s : SceneState) (t y0 : ℝ)
    (hspeed : s.earthOrbitalSpeed = C.ORB_OMEGA) (hy : s.sunPos.y = y0)
    (hGM : 0 < C.ORB_G * C.SOLAR_MASS) (hr : 0 < C.ORBIT_RADIUS) :
    (updateCelestialBodies C s t).earthPos =
        ⟨C.ORBIT_RADIUS * Real.cos (C.ORB_OMEGA * t), y0,
          C.ORBIT_RADIUS * Real.sin (C.ORB_OMEGA * t)⟩ ∧
      (∀ s' : SceneState, s'.earthOrbitalSpeed = C.ORB_OMEGA →
        s'.sunPos.y = y0 →
        (updateCelestialBodies C s' t).earthPos =
          (updateCelestialBodies C s t).earthPos) ∧
      (updateCelestialBodies C s 0).earthPos = ⟨C.ORBIT_RADIUS, y0, 0⟩ ∧
      (updateCelestialBodies C s (2 * Real.pi / C.ORB_OMEGA)).earthPos =
        ⟨C.ORBIT_RADIUS, y0, 0⟩ := by
  have homega : 0 < C.ORB_OMEGA := by
    have harg : 0 < C.ORB_G * C.SOLAR_MASS / C.ORBIT_RADIUS ^ 3 :=
      div_pos hGM (by positivity)
    exact Real.sqrt_pos.mpr harg
  have hperiod : C.ORB_OMEGA * (2 * Real.pi / C.ORB_OMEGA) = 2 * Real.pi := by
    field_simp
  refine ⟨?_, ?_, ?_, ?_⟩
  · simp [updateCelestialBodies, hspeed, hy]
  · intro s' hs' hy'
    simp [updateCelestialBodies, hspeed, hs', hy, hy']
  · simp [updateCelestialBodies, hy]
  · simp [updateCelestialBodies, hspeed, hy, hperiod,
      Real.cos_two_pi, Real.sin_two_pi]

/-- Witness for C2 at the rescaled constants (`G_orbit = 0.2`,
`M = 1.9885e5`, `r = 400`): after a tick at `t = 2π/ω` the earth is back
at `(400, 0, 0)`. -/
theorem earth_orbit_kinematics_witness :
    (updateCelestialBodies ScaledConsts
        ⟨0, ⟨0, 0, 0⟩, 0, 0, ScaledConsts.MOON_OMEGA,
          ScaledConsts.ORB_OMEGA, ⟨400, 0, 0⟩, 0, ⟨0, 0, 0⟩⟩
        (2 * Real.pi / ScaledConsts.ORB_OMEGA)).earthPos =
      ⟨400, 0, 0⟩ := by
  have h := (earth_orbit_kinematics ScaledConsts
      ⟨0, ⟨0, 0, 0⟩, 0, 0, ScaledConsts.MOON_OMEGA,
        ScaledConsts.ORB_OMEGA, ⟨400, 0, 0⟩, 0, ⟨0, 0, 0⟩⟩
      (2 * Real.pi / ScaledConsts.ORB_OMEGA) 0 rfl rfl
      (by norm_num [ScaledConsts]) (by norm_num [ScaledConsts])).2.2.2
  simpa only [ScaledConsts, show (400.0 : ℝ) = 400 by norm_num] using h

/-- C6: a tick gives the moon's mesh rotation (its own spin) and its pivot
rotation (its orbital angle about the earth) the same value, namely
`MOON_OMEGA * t` when the state carries the `createMoon` rate. -/
theorem moon_tidal_lock (C : Consts) (s : SceneState) (t : ℝ)
    (homega : s.moonOmega = C.MOON_OMEGA) :
    (updateCelestialBodies C s t).moonMeshRotY =
        (updateCelestialBodies C s t).moonPivotRotY ∧
      (updateCelestialBodies C s t).moonMeshRotY = C.MOON_OMEGA * t ∧
      (updateCelestialBodies C s t).moonPivotRotY = C.MOON_OMEGA * t := by
  simp [updateCelestialBodies, homega]

/-- Witness for C6 at the `src/constants.js` constants and `t = 7`. -/
theorem moon_tidal_lock_witness :
    (updateCelestialBodies FileConsts
        ⟨0, ⟨0, 0, 0⟩, 0, 0, FileConsts.MOON_OMEGA,
          FileConsts.ORB_OMEGA, ⟨50, 0, 0⟩, 0, ⟨0, 0, 0⟩⟩ 7).moonMeshRotY =
      FileConsts.MOON_OMEGA * 7 :=
  (moon_tidal_lock FileConsts
      ⟨0, ⟨0, 0, 0⟩, 0, 0, FileConsts.MOON_OMEGA,
        FileConsts.ORB_OMEGA, ⟨50, 0, 0⟩, 0, ⟨0, 0, 0⟩⟩ 7 rfl).2.1

/-! ## The fragment-shader distance fade (`GRID_FRAGMENT_SHADER`)

```
float distToPlayer = length(vWorldPos - playerPosition);
float fadeFactor = 1.0 - smoothstep(fadeStartDistance, maxVisibleDistance, distToPlayer);
```
-/

/-- GLSL `clamp(x, lo, hi) = min(max(x, lo), hi)`. -/
def glslClamp (x lo hi : ℝ) : ℝ := min (max x lo) hi

/-- GLSL `smoothstep(edge0, edge1, x)`: clamp the normalized coordinate to
`[0, 1]`, then apply the cubic Hermite polynomial `t*t*(3 - 2*t)`. -/
def smoothstep (edge0 edge1 x : ℝ) : ℝ :=
  let t := glslClamp ((x - edge0) / (edge1 - edge0)) 0 1
  t * t * (3 - 2 * t)

/-- The fragment shader's fade factor:
`1.0 - smoothstep(fadeStartDistance, maxVisibleDistance, distToPlayer)`. -/
def fadeFactor (fadeStartDistance maxVisibleDistance distToPlayer : ℝ) : ℝ :=
  1 - smoothstep fadeStartDistance maxVisibleDistance distToPlayer

/-- The fade factor a fragment at world position `wp` receives, measured
from the `playerPosition` uniform. -/
def fragmentFade (wp playerPosition : Vec3)
    (fadeStartDistance maxVisibleDistance : ℝ) : ℝ :=
  fadeFactor fadeStartDistance maxVisibleDistance (dist3 wp playerPosition)

/-- C3: with `fadeStart < fadeEnd`, the fade factor is `1` at distances at
most `fadeStart`, `0` at distances at least `fadeEnd`, `1/2` at the
midpoint, and on the interval in between equals
`1 - (3t^2 - 2t^3)` for the normalized distance `t` from `fadeStart`,
equivalently `3u^2 - 2u^3` for the normalized distance `u` from
`fadeEnd` — cubic Hermite smoothstep semantics. -/
theorem fade_factor_smoothstep (fadeStart fadeEnd : ℝ)
    (hlt : fadeStart < fadeEnd) :
    (∀ d, d ≤ fadeStart → fadeFactor fadeStart fadeEnd d = 1) ∧
      (∀ d, fadeEnd ≤ d → fadeFactor fadeStart fadeEnd d = 0) ∧
      fadeFactor fadeStart fadeEnd ((fadeStart + fadeEnd) / 2) = 1 / 2 ∧
      (∀ d, fadeStart ≤ d → d ≤ fadeEnd →
        fadeFactor fadeStart fadeEnd d =
            1 - (3 * ((d - fadeStart) / (fadeEnd - fadeStart)) ^ 2 -
              2 * ((d - fadeStart) / (fadeEnd - fadeStart)) ^ 3) ∧
          fadeFactor fadeStart fadeEnd d =
            3 * ((fadeEnd - d) / (fadeEnd - fadeStart)) ^ 2 -
              2 * ((fadeEnd - d) / (fadeEnd - fadeStart)) ^ 3) := by
  have hc : 0 < fadeEnd - fadeStart := sub_pos.mpr hlt
  refine ⟨?_, ?_, ?_, ?_⟩
  · intro d hd
    have hraw : (d - fadeStart) / (fadeEnd - fadeStart) ≤ 0 :=
      div_nonpos_iff.mpr (Or.inr ⟨sub_nonpos.mpr hd, le_of_lt hc⟩)
    simp [fadeFactor, smoothstep, glslClamp, max_eq_right hraw]
  · intro d hd
    have hraw : 1 ≤ (d - fadeStart) / (fadeEnd - fadeStart) := by
      rw [le_div_iff₀ hc]
      linarith
    have hraw0 : (0 : ℝ) ≤ (d - fadeStart) / (fadeEnd - fadeStart) :=
      le_trans zero_le_one hraw
    simp only [fadeFactor, smoothstep, glslClamp, max_eq_left hraw0,
      min_eq_right hraw]
    ring
  · have hraw : ((fadeStart + fadeEnd) / 2 - fadeStart) / (fadeEnd - fadeStart)
        = 1 / 2 := by
      rw [div_eq_iff (ne_of_gt hc)]
      ring
    have h0 : (0 : ℝ) ≤ (1 : ℝ) / 2 := by norm_num
    have h1 : (1 : ℝ) / 2 ≤ 1 := by norm_num
    simp only [fadeFactor, smoothstep, glslClamp, hraw, max_eq_left h0,
      min_eq_left h1]
    norm_num
  · intro d hd1 hd2
    have hraw0 : (0 : ℝ) ≤ (d - fadeStart) / (fadeEnd - fadeStart) :=
      div_nonneg (sub_nonneg.mpr hd1) (le_of_lt hc)
    have hraw1 : (d - fadeStart) / (fadeEnd - fadeStart) ≤ 1 := by
      rw [div_le_one hc]
      linarith
    have hu : (fadeEnd - d) / (fadeEnd - fadeStart)
        = 1 - (d - fadeStart) / (fadeEnd - fadeStart) := by
      field_simp
    constructor
    · simp only [fadeFactor, smoothstep, glslClamp, max_eq_left hraw0,
        min_eq_left hraw1]
      ring
    · simp only [fadeFactor, smoothstep, glslClamp, max_eq_left hraw0,
        min_eq_left hraw1, hu]
      ring

/-- Witness for C3 at the shipped uniforms `fadeStartDistance = 30`,
`maxVisibleDistance = 80`: factor `1` at distance 20, `0` at distance 100,
`1/2` at the midpoint distance 55. -/
theorem fade_factor_smoothstep_witness :
    fadeFactor 30 80 20 = 1 ∧ fadeFactor 30 80 100 = 0 ∧
      fadeFactor 30 80 55 = 1 / 2 := by
  have h := fade_factor_smoothstep 30 80 (by norm_num)
  refine ⟨h.1 20 (by norm_num), h.2.1 100 (by norm_num), ?_⟩
  have := h.2.2.1
  norm_num at this
  exact this

/-! ## Safety, linearity and sign of the displacement -/

/-- The shader's softened distance is at least its epsilon, hence
positive. -/
theorem dMass_pos (wp p : Vec3) : 0 < dMass wp p := by
  have h := Real.sqrt_nonneg ((wp.x - p.x) ^ 2 + (wp.z - p.z) ^ 2)
  simp only [dMass, hdist]
  nlinarith

/-- C8: with `falloff > 0` both denominators of the vertex shader are
strictly positive at every query point — including one coincident with a
mass position — so no division by zero occurs, and the displacement
magnitude is bounded by the finite value
`(|G|·|mass| + |G|·|earthMass|) / falloff`. -/
theorem displacement_finite (wp sunPos earthPos : Vec3)
    (mass earthMass G falloff : ℝ) (hf : 0 < falloff) :
    0 < dMass wp sunPos * dMass wp sunPos + falloff ∧
      0 < dMass wp earthPos * dMass wp earthPos + falloff ∧
      |gridDisplacement wp sunPos earthPos mass earthMass G falloff| ≤
        (|G| * |mass| + |G| * |earthMass|) / falloff := by
  have hs := dMass_pos wp sunPos
  have he := dMass_pos wp earthPos
  have hdenS : 0 < dMass wp sunPos * dMass wp sunPos + falloff := by nlinarith
  have hdenE : 0 < dMass wp earthPos * dMass wp earthPos + falloff := by
    nlinarith
  refine ⟨hdenS, hdenE, ?_⟩
  have hboundS : |dip wp sunPos G mass falloff| ≤ |G| * |mass| / falloff := by
    rw [dip, abs_div, abs_mul, abs_of_pos hdenS]
    apply div_le_div_of_nonneg_left (by positivity) hf
    nlinarith
  have hboundE : |dip wp earthPos G earthMass falloff| ≤
      |G| * |earthMass| / falloff := by
    rw [dip, abs_div, abs_mul, abs_of_pos hdenE]
    apply div_le_div_of_nonneg_left (by positivity) hf
    nlinarith
  have htri : |gridDisplacement wp sunPos earthPos mass earthMass G falloff|
      ≤ |dip wp sunPos G mass falloff| + |dip wp earthPos G earthMass falloff| := by
    simp only [gridDisplacement, gridVertex, totalDip]
    rw [show wp.y - (dip wp sunPos G mass falloff +
        dip wp earthPos G earthMass falloff) - wp.y =
        -(dip wp sunPos G mass falloff + dip wp earthPos G earthMass falloff)
      by ring, abs_neg]
    exact abs_add _ _
  calc |gridDisplacement wp sunPos earthPos mass earthMass G falloff|
      ≤ |dip wp sunPos G mass falloff| + |dip wp earthPos G earthMass falloff| :=
        htri
    _ ≤ |G| * |mass| / falloff + |G| * |earthMass| / falloff :=
        add_le_add hboundS hboundE
    _ = (|G| * |mass| + |G| * |earthMass|) / falloff := by ring

/-- Witness for C8 at the `src/constants.js` values, with the query point
coincident with the sun's position. -/
theorem displacement_finite_witness :
    0 < dMass ⟨0, 0, 0⟩ ⟨0, 0, 0⟩ * dMass ⟨0, 0, 0⟩ ⟨0, 0, 0⟩ + 15 ∧
      |gridDisplacement ⟨0, 0, 0⟩ ⟨0, 0, 0⟩ ⟨50, 0, 0⟩
          1000 (1000 / 400) 9.8 15| ≤
        (|(9.8 : ℝ)| * |(1000 : ℝ)| + |(9.8 : ℝ)| * |(1000 / 400 : ℝ)|) / 15 := by
  have h := displacement_finite ⟨0, 0, 0⟩ ⟨0, 0, 0⟩ ⟨50, 0, 0⟩
    1000 (1000 / 400) 9.8 15 (by norm_num)
  exact ⟨h.1, h.2.2⟩

/-- C9: superposition — the shader's two-mass displacement is exactly the
sum of the displacement with the earth's mass uniform zeroed (sun alone)
and the displacement with the sun's mass uniform zeroed (earth alone);
likewise the spec-side list model sums over singleton lists. -/
theorem displacement_superposition (wp sunPos earthPos : Vec3)
    (mass earthMass G falloff : ℝ) :
    gridDisplacement wp sunPos earthPos mass earthMass G falloff =
        gridDisplacement wp sunPos earthPos mass 0 G falloff +
          gridDisplacement wp sunPos earthPos 0 earthMass G falloff ∧
      specDisplacement (wp.x, wp.z) [⟨sunPos, mass⟩, ⟨earthPos, earthMass⟩]
          G falloff =
        specDisplacement (wp.x, wp.z) [⟨sunPos, mass⟩] G falloff +
          specDisplacement (wp.x, wp.z) [⟨earthPos, earthMass⟩] G falloff := by
  constructor
  · simp only [gridDisplacement, gridVertex, totalDip, dip]
    ring
  · simp only [specDisplacement, List.map_cons, List.map_nil,
      List.sum_cons, List.sum_nil]
    ring

/-- C10: when the uniforms are positive — as every shipped constants
variant has them — the total dip is strictly positive at every query point
and every earth position, so a plane vertex at height `0` is always moved
strictly below the plane. -/
theorem grid_dips_below_plane (wp sunPos earthPos : Vec3)
    (mass earthMass G falloff : ℝ) (hG : 0 < G) (hm : 0 < mass)
    (hme : 0 < earthMass) (hf : 0 < falloff) (hy : wp.y = 0) :
    0 < totalDip wp sunPos earthPos mass earthMass G falloff ∧
      (gridVertex wp sunPos earthPos mass earthMass G falloff).y < 0 := by
  have hs := dMass_pos wp sunPos
  have he := dMass_pos wp earthPos
  have hdipS : 0 < dip wp sunPos G mass falloff := by
    apply div_pos (by positivity)
    nlinarith
  have hdipE : 0 < dip wp earthPos G earthMass falloff := by
    apply div_pos (by positivity)
    nlinarith
  have htot : 0 < totalDip wp sunPos earthPos mass earthMass G falloff :=
    add_pos hdipS hdipE
  refine ⟨htot, ?_⟩
  simp only [gridVertex, hy]
  linarith

/-- Witness for C10 at the `src/constants.js` uniform values
(`G = 9.8`, `mass = 1000`, `earthMass = 2.5`, `falloff = 15`), a query
vertex at `(3, 0, 4)` and the earth at `(50, 0, 0)`. -/
theorem grid_dips_below_plane_witness :
    (gridVertex ⟨3, 0, 4⟩ ⟨0, 0, 0⟩ ⟨50, 0, 0⟩ 1000 (1000 / 400) 9.8 15).y
      < 0 :=
  (grid_dips_below_plane ⟨3, 0, 4⟩ ⟨0, 0, 0⟩ ⟨50, 0, 0⟩ 1000 (1000 / 400)
    9.8 15 (by norm_num) (by norm_num) (by norm_num) (by norm_num) rfl).2

/-! ## End-to-end numerical scenario (rescaled constants) -/

/-- C4: with the rescaled constants (`G = 9.8`,
`mass = 1.9885e30 / 1e25 = 1.9885e5`, `falloff = 10`) and the earth's mass
uniform zeroed, the displacement at any query point at horizontal distance
exactly `400` from the sun is `-9.8 * 1.9885e5 / (400^2 + 10)` to within
`1e-4` (the residue being the shader's `0.0001` distance epsilon). -/
theorem displacement_at_orbit_radius (wp sunPos earthPos : Vec3)
    (hd : hdist (wp.x, wp.z) (sunPos.x, sunPos.z) = 400) :
    |gridDisplacement wp sunPos earthPos ScaledConsts.SOLAR_MASS 0
          ScaledConsts.GRAVITY ScaledConsts.DIP_FALLOFF -
        (-(9.8 * 1.9885e5 / (400 ^ 2 + 10)))| ≤ 1e-4 := by
  simp only [gridDisplacement, gridVertex, totalDip, dip, dMass, hd,
    ScaledConsts, mul_zero, zero_div, add_zero]
  rw [abs_le]
  constructor <;> norm_num

/-- Witness for C4: the query point `(400, 0, 0)` with the sun at the
origin is at horizontal distance exactly `400`. -/
theorem displacement_at_orbit_radius_witness :
    |gridDisplacement ⟨400, 0, 0⟩ ⟨0, 0, 0⟩ ⟨0, 0, 0⟩
          ScaledConsts.SOLAR_MASS 0 ScaledConsts.GRAVITY
          ScaledConsts.DIP_FALLOFF -
        (-(9.8 * 1.9885e5 / (400 ^ 2 + 10)))| ≤ 1e-4 := by
  apply displacement_at_orbit_radius
  have h4 : (((400 : ℝ), (0 : ℝ)).1 - ((0 : ℝ), (0 : ℝ)).1) ^ 2 +
      (((400 : ℝ), (0 : ℝ)).2 - ((0 : ℝ), (0 : ℝ)).2) ^ 2 = 400 ^ 2 := by
    norm_num
  rw [hdist]
  rw [show ((⟨400, 0, 0⟩ : Vec3).x, (⟨400, 0, 0⟩ : Vec3).z) =
      ((400 : ℝ), (0 : ℝ)) from rfl,
    show ((⟨0, 0, 0⟩ : Vec3).x, (⟨0, 0, 0⟩ : Vec3).z) =
      ((0 : ℝ), (0 : ℝ)) from rfl, h4,
    Real.sqrt_sq (by norm_num : (0 : ℝ) ≤ 400)]

/-! ## Monotonicity of the dip in distance (C5) -/

/-- Horizontal distance between two points on the `x` axis, first point to
the right. -/
theorem hdist_axis_ge (a c : ℝ) (h : c ≤ a) : hdist (a, 0) (c, 0) = a - c := by
  rw [hdist, show (a - c) ^ 2 + ((0 : ℝ) - 0) ^ 2 = (a - c) ^ 2 by ring,
    Real.sqrt_sq (sub_nonneg.mpr h)]

/-- Horizontal distance between two points on the `x` axis, first point to
the left. -/
theorem hdist_axis_le (a c : ℝ) (h : a ≤ c) : hdist (a, 0) (c, 0) = c - a := by
  rw [hdist, show (a - c) ^ 2 + ((0 : ℝ) - 0) ^ 2 = (c - a) ^ 2 by ring,
    Real.sqrt_sq (sub_nonneg.mpr h)]

/-- Softened shader distance for points on the `x` axis of the grid plane,
query to the right of the mass. -/
theorem dMass_axis_ge (a ya c yc : ℝ) (h : c ≤ a) :
    dMass ⟨a, ya, 0⟩ ⟨c, yc, 0⟩ = a - c + 0.0001 := by
  show hdist (a, 0) (c, 0) + 0.0001 = a - c + 0.0001
  rw [hdist_axis_ge a c h]

/-- Softened shader distance for points on the `x` axis of the grid plane,
query to the left of the mass. -/
theorem dMass_axis_le (a ya c yc : ℝ) (h : a ≤ c) :
    dMass ⟨a, ya, 0⟩ ⟨c, yc, 0⟩ = c - a + 0.0001 := by
  show hdist (a, 0) (c, 0) + 0.0001 = c - a + 0.0001
  rw [hdist_axis_le a c h]

/-- Counterexample to C5 as stated. Sun-mass uniform `1` at the origin,
earth-mass uniform `1000000` at `(100, 0, 0)`, `G = 9.8`, `falloff = 10`.
The query `(1, 0, 0)` is closer to the sun than the query `(2, 0, 0)`
(distances `1 < 2`) and the earth is farther than the sun from both
queries (distances `99` and `98`), yet the displacement magnitude at the
closer query is strictly smaller, because moving away from the sun moved
the query towards the far heavier earth. -/
theorem displacement_monotonicity_counterexample :
    hdist (1, 0) (0, 0) < hdist (2, 0) (0, 0) ∧
      hdist (1, 0) (0, 0) ≤ hdist (1, 0) (100, 0) ∧
      hdist (2, 0) (0, 0) ≤ hdist (2, 0) (100, 0) ∧
      |gridDisplacement ⟨1, 0, 0⟩ ⟨0, 0, 0⟩ ⟨100, 0, 0⟩ 1 1000000 9.8 10| <
        |gridDisplacement ⟨2, 0, 0⟩ ⟨0, 0, 0⟩ ⟨100, 0, 0⟩ 1 1000000 9.8 10| := by
  have h10 : hdist (1, 0) (0, 0) = 1 := by
    rw [hdist_axis_ge 1 0 (by norm_num)]; norm_num
  have h20 : hdist (2, 0) (0, 0) = 2 := by
    rw [hdist_axis_ge 2 0 (by norm_num)]; norm_num
  have h1e : hdist (1, 0) (100, 0) = 99 := by
    rw [hdist_axis_le 1 100 (by norm_num)]; norm_num
  have h2e : hdist (2, 0) (100, 0) = 98 := by
    rw [hdist_axis_le 2 100 (by norm_num)]; norm_num
  have v1 : gridDisplacement ⟨1, 0, 0⟩ ⟨0, 0, 0⟩ ⟨100, 0, 0⟩
      1 1000000 9.8 10 =
      -(9.8 * 1 / ((1 + 0.0001) * (1 + 0.0001) + 10) +
        9.8 * 1000000 / ((99 + 0.0001) * (99 + 0.0001) + 10)) := by
    simp only [gridDisplacement, gridVertex, totalDip, dip,
      dMass_axis_ge 1 0 0 0 (by norm_num : (0 : ℝ) ≤ 1),
      dMass_axis_le 1 0 100 0 (by norm_num : (1 : ℝ) ≤ 100)]
    norm_num
  have v2 : gridDisplacement ⟨2, 0, 0⟩ ⟨0, 0, 0⟩ ⟨100, 0, 0⟩
      1 1000000 9.8 10 =
      -(9.8 * 1 / ((2 + 0.0001) * (2 + 0.0001) + 10) +
        9.8 * 1000000 / ((98 + 0.0001) * (98 + 0.0001) + 10)) := by
    simp only [gridDisplacement, gridVertex, totalDip, dip,
      dMass_axis_ge 2 0 0 0 (by norm_num : (0 : ℝ) ≤ 2),
      dMass_axis_le 2 0 100 0 (by norm_num : (2 : ℝ) ≤ 100)]
    norm_num
  have hn1 : gridDisplacement ⟨1, 0, 0⟩ ⟨0, 0, 0⟩ ⟨100, 0, 0⟩
      1 1000000 9.8 10 ≤ 0 := by rw [v1]; norm_num
  have hn2 : gridDisplacement ⟨2, 0, 0⟩ ⟨0, 0, 0⟩ ⟨100, 0, 0⟩
      1 1000000 9.8 10 ≤ 0 := by rw [v2]; norm_num
  refine ⟨by rw [h10, h20]; norm_num, by rw [h10, h1e]; norm_num,
    by rw [h20, h2e]; norm_num, ?_⟩
  rw [abs_of_nonpos hn1, abs_of_nonpos hn2, v1, v2]
  norm_num

/-- C5 amended: for a single isolated mass — the other mass uniform set to
`0` — with positive `G`, mass and falloff, the displacement magnitude
strictly decreases as the horizontal distance from the mass increases. In
multi-mass configurations the claimed proviso (the other mass no closer
than this one) does not make the magnitude monotone. -/
theorem single_mass_displacement_strict_antitone
    (wp1 wp2 sunPos earthPos : Vec3) (mass G falloff : ℝ)
    (hG : 0 < G) (hm : 0 < mass) (hf : 0 < falloff)
    (hcloser : hdist (wp1.x, wp1.z) (sunPos.x, sunPos.z) <
      hdist (wp2.x, wp2.z) (sunPos.x, sunPos.z)) :
    |gridDisplacement wp2 sunPos earthPos mass 0 G falloff| <
      |gridDisplacement wp1 sunPos earthPos mass 0 G falloff| := by
  have h1nn : 0 ≤ hdist (wp1.x, wp1.z) (sunPos.x, sunPos.z) :=
    Real.sqrt_nonneg _
  have hd1 : 0 < dMass wp1 sunPos := dMass_pos wp1 sunPos
  have hd2 : 0 < dMass wp2 sunPos := dMass_pos wp2 sunPos
  have hdlt : dMass wp1 sunPos < dMass wp2 sunPos := by
    simp only [dMass]
    linarith
  have hden1 : 0 < dMass wp1 sunPos * dMass wp1 sunPos + falloff := by
    nlinarith
  have hdenlt : dMass wp1 sunPos * dMass wp1 sunPos + falloff <
      dMass wp2 sunPos * dMass wp2 sunPos + falloff := by
    nlinarith
  have hdiplt : dip wp2 sunPos G mass falloff <
      dip wp1 sunPos G mass falloff := by
    simp only [dip]
    exact div_lt_div_of_pos_left (by positivity) hden1 hdenlt
  have hdip2 : 0 < dip wp2 sunPos G mass falloff := by
    apply div_pos (by positivity)
    nlinarith
  have hzero1 : dip wp1 earthPos G 0 falloff = 0 := by
    simp [dip]
  have hzero2 : dip wp2 earthPos G 0 falloff = 0 := by
    simp [dip]
  have e1 : gridDisplacement wp1 sunPos earthPos mass 0 G falloff =
      -dip wp1 sunPos G mass falloff := by
    simp only [gridDisplacement, gridVertex, totalDip, hzero1]
    ring
  have e2 : gridDisplacement wp2 sunPos earthPos mass 0 G falloff =
      -dip wp2 sunPos G mass falloff := by
    simp only [gridDisplacement, gridVertex, totalDip, hzero2]
    ring
  rw [e1, e2, abs_neg, abs_neg, abs_of_pos hdip2,
    abs_of_pos (lt_trans hdip2 hdiplt)]
  exact hdiplt

/-- Witness for the amended C5: sun mass `1000` at the origin with the
`src/constants.js` values, queries at distances `3` and `4`. -/
theorem single_mass_displacement_strict_antitone_witness :
    |gridDisplacement ⟨4, 0, 0⟩ ⟨0, 0, 0⟩ ⟨50, 0, 0⟩ 1000 0 9.8 15| <
      |gridDisplacement ⟨3, 0, 0⟩ ⟨0, 0, 0⟩ ⟨50, 0, 0⟩ 1000 0 9.8 15| := by
  apply single_mass_displacement_strict_antitone ⟨3, 0, 0⟩ ⟨4, 0, 0⟩
    ⟨0, 0, 0⟩ ⟨50, 0, 0⟩ 1000 9.8 15 (by norm_num) (by norm_num)
    (by norm_num)
  show hdist (3, 0) (0, 0) < hdist (4, 0) (0, 0)
  rw [hdist_axis_ge 3 0 (by norm_num), hdist_axis_ge 4 0 (by norm_num)]
  norm_num

/-! ## Grid initialization (`createGrid` in `grid.js`)

```
gridMat.uniforms = {
  sunPos:     { value: new THREE.Vector3(0, 0, 0) },
  mass:       { value: SOLAR_MASS },
  G:          { value: GRAVITY },
  falloff:    { value: DIP_FALLOFF },
  earthPos:   { value: new THREE.Vector3() },
  earthMass:  { value: EARTH_MASS },
  ...
  maxVisibleDistance: { value: 80.0 },
  fadeStartDistance: { value: 30.0 }
};
```
-/

/-- The uniform record `createGrid` installs on the grid material. -/
structure GridUniforms where
  sunPos : Vec3
  mass : ℝ
  G : ℝ
  falloff : ℝ
  earthPos : Vec3
  earthMass : ℝ
  opacity : ℝ
  spacing : ℝ
  playerPosition : Vec3
  maxVisibleDistance : ℝ
  fadeStartDistance : ℝ

/-- `createGrid()`: builds the uniform set from the imported constants.
The function body is straight-line construction — it contains no check,
no branch and no failure path, so it is total. -/
def createGrid (C : Consts) : GridUniforms :=
  { sunPos := ⟨0, 0, 0⟩
    mass := C.SOLAR_MASS
    G := C.GRAVITY
    falloff := C.DIP_FALLOFF
    earthPos := ⟨0, 0, 0⟩
    earthMass := C.EARTH_MASS
    opacity := 0.3
    spacing := 2.0
    playerPosition := ⟨0, 0, 0⟩
    maxVisibleDistance := 80.0
    fadeStartDistance := 30.0 }

/-- Modelled from the spec: the validity conditions of section 7 —
nonnegative masses, strictly positive orbital radius and falloff, and
`fadeStart < fadeEnd`. The repository has no counterpart of this
predicate; no source file checks any of these conditions. -/
def ValidConfig (C : Consts) (fadeStart fadeEnd : ℝ) : Prop :=
  0 ≤ C.SOLAR_MASS ∧ 0 ≤ C.EARTH_MASS ∧ 0 < C.ORBIT_RADIUS ∧
    0 < C.DIP_FALLOFF ∧ fadeStart < fadeEnd

/-- Counterexample to C7: a configuration with negative falloff and
negative earth mass is invalid, yet `createGrid` completes on it and
installs the invalid values verbatim in the uniforms — initialization
neither rejects nor clamps them. -/
theorem config_not_validated_counterexample :
    ¬ ValidConfig ⟨9.8, 1000, -1, -5, 0.2, 50, 5⟩ 30 80 ∧
      (createGrid ⟨9.8, 1000, -1, -5, 0.2, 50, 5⟩).falloff = -1 ∧
      (createGrid ⟨9.8, 1000, -1, -5, 0.2, 50, 5⟩).earthMass = -5 ∧
      (createGrid ⟨9.8, 1000, -1, -5, 0.2, 50, 5⟩).mass = 1000 := by
  refine ⟨?_, rfl, rfl, rfl⟩
  intro h
  have hfall : (0 : ℝ) < -1 := h.2.2.2.1
  norm_num at hfall

/-- C7 amended: `createGrid` performs no validation at all — for every
configuration, valid or invalid, it succeeds and copies the configuration
values into the uniforms verbatim (nothing is rejected or clamped); the
shipped `src/constants.js` configuration together with the hard-coded
fade distances `30 < 80` happens to satisfy every validity condition. -/
theorem create_grid_copies_config_verbatim :
    (∀ C : Consts,
      (createGrid C).mass = C.SOLAR_MASS ∧
        (createGrid C).G = C.GRAVITY ∧
        (createGrid C).falloff = C.DIP_FALLOFF ∧
        (createGrid C).earthMass = C.EARTH_MASS ∧
        (createGrid C).fadeStartDistance = 30 ∧
        (createGrid C).maxVisibleDistance = 80) ∧
      ValidConfig FileConsts 30 80 := by
  refine ⟨fun C => ⟨rfl, rfl, rfl, rfl, by norm_num [createGrid],
    by norm_num [createGrid]⟩, ?_⟩
  refine ⟨by norm_num [FileConsts], by norm_num [FileConsts],
    by norm_num [FileConsts], by norm_num [FileConsts], by norm_num⟩
